import Mathlib

/-!
Shallow embedding of the core logic of the zookeeper charm
(`src/charm.py`, class `ZookeeperCharm`) together with the parts of the
ensemble-membership registry that the charm consumes.

Conventions of the embedding:

* The per-unit stored state `self.ks` (an ops `StoredState`) is a record of
  `Option String` fields: `none` models a field that was never assigned and
  never given a `set_default`; reading such a field raises `AttributeError`
  in the source and is modelled by `sRead` returning an error.
* Charm configuration is a record `Config`.  Keys read with
  `self.config.get(key, default)` become `Option` fields with the default
  applied at the read site, exactly as in the source; keys read with
  `self.config[key]` become plain fields.
* External collaborators (`base64.b64decode`, `generateSelfSigned`,
  `genRandomPassword`) are an environment `Env` of oracle functions;
  successive random draws of `genRandomPassword` are indexed by a counter
  threaded through the computation.  Calls to `PKCS12CreateKeystore` are
  recorded as `KeystoreWrite` values instead of touching a filesystem.
* `src/cluster.py` (class `ZookeeperCluster`) is not among the sources;
  the registry operations the charm calls (`is_ready`, `get_peers`) and the
  registry contract (`assignSelfId`, `recordPeer`) are modelled from the
  spec, as marked on each definition.
-/

set_option maxHeartbeats 1000000

deriving instance DecidableEq for Except

/-- The charm's `self.ks` stored state.  `__init__` (charm.py lines 60-65)
gives `set_default` values to the first six fields only; `ks_password` and
`ts_password` have no default and are `none` until (ever) assigned. -/
structure StoredState where
  quorum_cert : Option String
  quorum_key : Option String
  ssl_cert : Option String
  ssl_key : Option String
  ts_zookeeper_pwd : Option String
  ks_zookeeper_pwd : Option String
  ks_password : Option String
  ts_password : Option String
deriving DecidableEq, Repr

/-- Charm configuration.  `dataDir`/`dataLogDir` hold the first value of the
yaml mapping in `data-dir`/`data-log-dir` (charm.py lines 229-232); the
yaml plumbing itself is out of scope.  `zookeeper_properties` is the
mapping `self.config.get("zookeeper-properties", "") or {}`. -/
structure Config where
  generate_root_ca : Bool
  ssl_cert : String
  ssl_key : String
  ssl_quorum_cert : String
  ssl_quorum_key : String
  keystore_path : Option String
  truststore_path : Option String
  quorum_keystore_path : Option String
  quorum_truststore_path : Option String
  clientPort : Option Nat
  ssl_quorum : Bool
  zookeeper_properties : List (String × String)
  dataDir : String
  dataLogDir : String
deriving DecidableEq, Repr

/-- External collaborators of the charm: `base64.b64decode(.)` composed with
ascii decoding, `wand.security.ssl.generateSelfSigned` (keyed by the
`certname` argument; the filesystem/ownership arguments are out of scope),
and the stream of successive `wand.security.ssl.genRandomPassword` draws,
indexed by how many draws happened before. -/
structure Env where
  b64decode : String → String
  generateSelfSigned : String → String × String
  genRandomPassword : Nat → String

/-- Error raised when a `StoredState` field that was never assigned is read
(`AttributeError` in ops' StoredState). -/
inductive ChErr where
  | storedUnset (fld : String)
deriving DecidableEq, Repr

/-- Read a stored-state field; an unassigned field is an error. -/
def sRead (v : Option String) (nm : String) : Except ChErr String :=
  match v with
  | some s => .ok s
  | none => .error (.storedUnset nm)

/-- `ZookeeperCharm.get_ssl_cert` (charm.py lines 78-81). -/
def get_ssl_cert (cfg : Config) (env : Env) (ks : StoredState) : Except ChErr String :=
  if cfg.generate_root_ca then sRead ks.ssl_cert "ssl_cert"
  else .ok (env.b64decode cfg.ssl_cert)

/-- `ZookeeperCharm.get_ssl_key` (charm.py lines 83-86). -/
def get_ssl_key (cfg : Config) (env : Env) (ks : StoredState) : Except ChErr String :=
  if cfg.generate_root_ca then sRead ks.ssl_key "ssl_key"
  else .ok (env.b64decode cfg.ssl_key)

/-- `ZookeeperCharm.get_quorum_cert` (charm.py lines 88-91). -/
def get_quorum_cert (cfg : Config) (env : Env) (ks : StoredState) : Except ChErr String :=
  if cfg.generate_root_ca then sRead ks.quorum_cert "quorum_cert"
  else .ok (env.b64decode cfg.ssl_quorum_cert)

/-- `ZookeeperCharm.get_quorum_key` (charm.py lines 93-96). -/
def get_quorum_key (cfg : Config) (env : Env) (ks : StoredState) : Except ChErr String :=
  if cfg.generate_root_ca then sRead ks.quorum_key "quorum_key"
  else .ok (env.b64decode cfg.ssl_quorum_key)

/-- `ZookeeperCharm.get_ssl_keystore` (charm.py lines 98-101). -/
def get_ssl_keystore (cfg : Config) : String :=
  cfg.keystore_path.getD "/var/ssl/private/kafka_ssl_ks.jks"

/-- `ZookeeperCharm.get_ssl_truststore` (charm.py lines 103-106). -/
def get_ssl_truststore (cfg : Config) : String :=
  cfg.truststore_path.getD "/var/ssl/private/kafka_ssl_ks.jks"

/-- `ZookeeperCharm.get_quorum_keystore` (charm.py lines 108-111). -/
def get_quorum_keystore (cfg : Config) : String :=
  cfg.quorum_keystore_path.getD "/var/ssl/private/kafka_quorum_ks.jks"

/-- `ZookeeperCharm.get_quorum_truststore` (charm.py lines 113-116).  Note
the default value uses a comma, not a slash, after `/var/ssl/private`. -/
def get_quorum_truststore (cfg : Config) : String :=
  cfg.quorum_truststore_path.getD "/var/ssl/private,kafka_quorum_ts.jks"

/-- One `PKCS12CreateKeystore` invocation: the target path, the password
protecting the keystore, and the certificate/key packed into it.  The
ownership/permission and `/tmp` staging arguments are out of scope. -/
structure KeystoreWrite where
  path : String
  password : String
  cert : String
  key : String
deriving DecidableEq, Repr

/-- Result of `_generate_keystores`: the updated stored state, the password
draw counter, and the keystore writes performed at the two
`PKCS12CreateKeystore` call sites (quorum, then client/ssl). -/
structure GenResult where
  ks : StoredState
  ctr : Nat
  quorumWrite : Option KeystoreWrite
  sslWrite : Option KeystoreWrite
deriving DecidableEq, Repr

/-- The quorum-keystore block of `_generate_keystores` (charm.py lines
151-165): if both quorum material fields are non-empty, draw a fresh
password into `ks_zookeeper_pwd`, draw a staging filename, and package the
quorum keystore at `get_quorum_keystore()`. -/
def quorumKsStep (cfg : Config) (env : Env) (ks : StoredState) (ctr : Nat) :
    Except ChErr (StoredState × Nat × Option KeystoreWrite) :=
  match sRead ks.quorum_cert "quorum_cert", sRead ks.quorum_key "quorum_key" with
  | .error e, _ => .error e
  | _, .error e => .error e
  | .ok qc, .ok qk =>
    if 0 < qc.length ∧ 0 < qk.length then
      let pwd := env.genRandomPassword ctr
      let ks1 := { ks with ks_zookeeper_pwd := some pwd }
      match get_quorum_cert cfg env ks1, get_quorum_key cfg env ks1 with
      | .error e, _ => .error e
      | _, .error e => .error e
      | .ok c, .ok k =>
        .ok (ks1, ctr + 2, some ⟨get_quorum_keystore cfg, pwd, c, k⟩)
    else .ok (ks, ctr, none)

/-- The client/ssl-keystore block of `_generate_keystores` (charm.py lines
166-180): if both ssl material fields are non-empty, draw a fresh password
into `ks_password`, draw a staging filename, and package the ssl keystore
at `get_ssl_keystore()`. -/
def sslKsStep (cfg : Config) (env : Env) (ks : StoredState) (ctr : Nat) :
    Except ChErr (StoredState × Nat × Option KeystoreWrite) :=
  match sRead ks.ssl_cert "ssl_cert", sRead ks.ssl_key "ssl_key" with
  | .error e, _ => .error e
  | _, .error e => .error e
  | .ok sc, .ok sk =>
    if 0 < sc.length ∧ 0 < sk.length then
      let pwd := env.genRandomPassword ctr
      let ks1 := { ks with ks_password := some pwd }
      match get_ssl_cert cfg env ks1, get_ssl_key cfg env ks1 with
      | .error e, _ => .error e
      | _, .error e => .error e
      | .ok c, .ok k =>
        .ok (ks1, ctr + 2, some ⟨get_ssl_keystore cfg, pwd, c, k⟩)
    else .ok (ks, ctr, none)

/-- The keystore-building tail of `_generate_keystores` (charm.py lines
151-180), run after the material fields have been settled. -/
def buildKeystores (cfg : Config) (env : Env) (ks : StoredState) (ctr : Nat) :
    Except ChErr GenResult :=
  match quorumKsStep cfg env ks ctr with
  | .error e => .error e
  | .ok (ks1, ctr1, qw) =>
    match sslKsStep cfg env ks1 ctr1 with
    | .error e => .error e
    | .ok (ks2, ctr2, sw) => .ok ⟨ks2, ctr2, qw, sw⟩

/-- `ZookeeperCharm._generate_keystores` (charm.py lines 118-180).  When
`generate-root-ca` is set and all four material fields are non-empty it is
a no-op.  When `generate-root-ca` is set otherwise, both root CAs are
regenerated.  When `generate-root-ca` is unset, the stored material is
compared against the externally supplied values; note that the source
compares `quorum_key` against `get_quorum_key()` a second time where the
`ssl_key` comparison would be expected (charm.py line 143), which this
definition reproduces verbatim. -/
def generate_keystores (cfg : Config) (env : Env) (ks : StoredState) (ctr : Nat) :
    Except ChErr GenResult :=
  if cfg.generate_root_ca then
    match sRead ks.quorum_cert "quorum_cert", sRead ks.quorum_key "quorum_key",
          sRead ks.ssl_cert "ssl_cert", sRead ks.ssl_key "ssl_key" with
    | .error e, _, _, _ => .error e
    | _, .error e, _, _ => .error e
    | _, _, .error e, _ => .error e
    | _, _, _, .error e => .error e
    | .ok qc, .ok qk, .ok sc, .ok sk =>
      if 0 < qc.length ∧ 0 < qk.length ∧ 0 < sc.length ∧ 0 < sk.length then
        .ok ⟨ks, ctr, none, none⟩
      else
        let q := env.generateSelfSigned "quorum-zookeeper-root-ca"
        let s := env.generateSelfSigned "ssl-zookeeper-root-ca"
        buildKeystores cfg env
          { ks with quorum_cert := some q.1, quorum_key := some q.2,
                    ssl_cert := some s.1, ssl_key := some s.2 } ctr
  else
    match sRead ks.quorum_cert "quorum_cert", sRead ks.quorum_key "quorum_key",
          sRead ks.ssl_cert "ssl_cert" with
    | .error e, _, _ => .error e
    | _, .error e, _ => .error e
    | _, _, .error e => .error e
    | .ok qc, .ok qk, .ok sc =>
      match get_quorum_cert cfg env ks, get_quorum_key cfg env ks,
            get_ssl_cert cfg env ks with
      | .error e, _, _ => .error e
      | _, .error e, _ => .error e
      | _, _, .error e => .error e
      | .ok gqc, .ok gqk, .ok gsc =>
        if qc = gqc ∧ qk = gqk ∧ sc = gsc ∧ qk = gqk then
          .ok ⟨ks, ctr, none, none⟩
        else
          match get_ssl_key cfg env ks with
          | .error e => .error e
          | .ok gsk =>
            buildKeystores cfg env
              { ks with quorum_cert := some gqc, quorum_key := some gqk,
                        ssl_cert := some gsc, ssl_key := some gsk } ctr

/-- The stored state right after `__init__` ran its `set_default` calls
(charm.py lines 60-65) on a fresh unit: the six defaulted fields hold `""`,
`ks_password` and `ts_password` were never given a value. -/
def initState : StoredState :=
  { quorum_cert := some "", quorum_key := some "", ssl_cert := some "",
    ssl_key := some "", ts_zookeeper_pwd := some "", ks_zookeeper_pwd := some "",
    ks_password := none, ts_password := none }

/-- Stored states reachable in this program: the fresh `__init__` state,
closed under the only operation that mutates `self.ks`, namely
`_generate_keystores` (run from `__init__` and from `_on_config_changed`). -/
inductive ReachableKS : StoredState → Prop
  | init : ReachableKS initState
  | step (cfg : Config) (env : Env) (ks : StoredState) (ctr : Nat) (r : GenResult) :
      ReachableKS ks → generate_keystores cfg env ks ctr = .ok r → ReachableKS r.ks

/-- Modelled from the spec: a `ClusterMember` of the Ensemble Membership
Registry (`src/cluster.py`, class `ZookeeperCluster`, is not among the
sources; only its charm-side callers are).  `myid` is the member id, and
`endpoint` is the `host:peerPort:leaderPort` string. -/
structure ClusterMember where
  myid : Nat
  endpoint : String
deriving DecidableEq, Repr

/-- Modelled from the spec: the `EnsembleState` owned by the Membership
Registry: target quorum size, self's assigned id (if any), self's announced
endpoint, and the recorded members. -/
structure ClusterState where
  expectedSize : Nat
  selfId : Option Nat
  selfEndpoint : String
  members : List ClusterMember
deriving DecidableEq, Repr

/-- Modelled from the spec: `ZookeeperCluster.is_ready` — true iff the
member count reached the expected quorum size and self has an assigned id. -/
def ClusterState.is_ready (c : ClusterState) : Bool :=
  decide (c.expectedSize ≤ c.members.length) && c.selfId.isSome

/-- Ordering of members used by the registry snapshot: ascending `myid`. -/
def memberLe (a b : ClusterMember) : Prop := a.myid ≤ b.myid

instance : DecidableRel memberLe := fun a b => Nat.decLe a.myid b.myid

instance : IsTotal ClusterMember memberLe := ⟨fun a b => Nat.le_total a.myid b.myid⟩

instance : IsTrans ClusterMember memberLe := ⟨fun _ _ _ h1 h2 => Nat.le_trans h1 h2⟩

/-- Modelled from the spec: `ZookeeperCluster.get_peers` — the snapshot of
recorded members, ordered by `myid` ascending for deterministic downstream
rendering. -/
def ClusterState.get_peers (c : ClusterState) : List ClusterMember :=
  List.insertionSort memberLe c.members

/-- Modelled from the spec: error taxonomy of the Membership Registry. -/
inductive RegErr where
  | conflict
deriving DecidableEq, Repr

/-- Modelled from the spec: the smallest member of `{start, start+1, ...}`
not in `l`, searched with the given fuel. -/
def smallestFrom (l : List Nat) (start : Nat) : Nat → Nat
  | 0 => start
  | fuel + 1 => if start ∈ l then smallestFrom l (start + 1) fuel else start

/-- Modelled from the spec: the smallest positive integer not present in
`l` (fuel `l.length + 1` suffices by pigeonhole). -/
def smallestMissing (l : List Nat) : Nat :=
  smallestFrom l 1 (l.length + 1)

/-- Modelled from the spec: `assignSelfId` of the Membership Registry — if
self already has an id, return it unchanged; otherwise record and return
the smallest positive integer not already present among the members. -/
def assignSelfId (c : ClusterState) : Nat × ClusterState :=
  match c.selfId with
  | some i => (i, c)
  | none =>
    let i := smallestMissing (c.members.map ClusterMember.myid)
    (i, { c with selfId := some i, members := c.members ++ [⟨i, c.selfEndpoint⟩] })

/-- Modelled from the spec: `recordPeer` of the Membership Registry —
upsert a remote member; an existing entry with the same id and a different
endpoint is a `ConflictError` (no replace requested). -/
def recordPeer (c : ClusterState) (i : Nat) (ep : String) : Except RegErr ClusterState :=
  match c.members.find? (fun m => m.myid == i) with
  | some m => if m.endpoint = ep then .ok c else .error .conflict
  | none => .ok { c with members := c.members ++ [⟨i, ep⟩] }

/-- Python-dict assignment `d[k] = v` on an association list: replace in
place if the key exists, else append (insertion order preserved). -/
def dictSet (d : List (String × String)) (k v : String) : List (String × String) :=
  if d.any (fun p => p.1 == k) then
    d.map (fun p => if p.1 == k then (k, v) else p)
  else d ++ [(k, v)]

/-- Python-dict lookup `d[k]` on an association list. -/
def dictGet (d : List (String × String)) (k : String) : Option String :=
  (d.find? (fun p => p.1 == k)).map Prod.snd

/-- Outcome of `_render_zk_properties`: either the blocked early return
(charm.py lines 287-290) or the rendered property mapping handed to the
`render` collaborator (lines 295-302). -/
inductive RenderOut where
  | blocked (msg : String)
  | rendered (props : List (String × String))
deriving DecidableEq, Repr

/-- Key of a committed ensemble entry: `"server.{}".format(myid)`. -/
def serverKey (i : Nat) : String := "server." ++ toString i

/-- The `server.<myid> = <endpoint>` loop of `_render_zk_properties`
(charm.py lines 291-294), iterating over `get_peers` in order. -/
def serverLoop (peers : List ClusterMember) (props : List (String × String)) :
    List (String × String) :=
  peers.foldl (fun d m => dictSet d (serverKey m.myid) m.endpoint) props

/-- The client-listener part of `_render_zk_properties` (charm.py lines
233-263): with both stored ssl material fields non-empty, the secure client
port, mutual-auth requirement and keystore/truststore entries (reading the
stored `ks_password` and `ts_password`); otherwise the plaintext client
port.  The `set_mTLS_auth` relation broadcast is an external side effect
and is not recorded; its `ts_password` argument was already read into the
properties. -/
def zkClientProps (cfg : Config) (ks : StoredState) (props : List (String × String))
    (sc sk : String) : Except ChErr (List (String × String)) :=
  if 0 < sc.length ∧ 0 < sk.length then
    let p := dictSet props "secureClientPort" (toString (cfg.clientPort.getD 2182))
    let p := dictSet p "serverCnxnFactory"
      "org.apache.zookeeper.server.NettyServerCnxnFactory"
    let p := dictSet p "authProvider.x509"
      "org.apache.zookeeper.server.auth.X509AuthenticationProvider"
    let p := dictSet p "sslQuorum" "false"
    let p := dictSet p "ssl.clientAuth" "need"
    let p := dictSet p "ssl.keyStore.location"
      (cfg.keystore_path.getD "/var/ssl/private/zookeeper.keystore.jks")
    match sRead ks.ks_password "ks_password" with
    | .error e => .error e
    | .ok kp =>
      let p := dictSet p "ssl.keyStore.password" kp
      let p := dictSet p "ssl.trustStore.location"
        (cfg.truststore_path.getD "/var/ssl/private/zookeeper.truststore.jks")
      match sRead ks.ts_password "ts_password" with
      | .error e => .error e
      | .ok tp => .ok (dictSet p "ssl.trustStore.password" tp)
  else
    .ok (dictSet (dictSet props "ssl.clientAuth" "none") "clientPort"
      (toString (cfg.clientPort.getD 2182)))

/-- The quorum-TLS part of `_render_zk_properties` (charm.py lines
265-285): when `ssl_quorum` is configured, the quorum keystore/truststore
entries and `sslQuorum = "true"`.  The `set_ssl_keypair` relation broadcast
is an external side effect; the reads made on its argument list
(`get_quorum_cert`, `ts_zookeeper_pwd`) are kept. -/
def zkQuorumProps (cfg : Config) (env : Env) (ks : StoredState)
    (p0 : List (String × String)) : Except ChErr (List (String × String)) :=
  if cfg.ssl_quorum then
    let p := dictSet p0 "serverCnxnFactory"
      "org.apache.zookeeper.server.NettyServerCnxnFactory"
    match get_quorum_cert cfg env ks, sRead ks.ts_zookeeper_pwd "ts_zookeeper_pwd" with
    | .error e, _ => .error e
    | _, .error e => .error e
    | .ok _qcert, .ok tszp =>
      let p := dictSet p "ssl.quorum.keyStore.location" (get_quorum_keystore cfg)
      match sRead ks.ks_zookeeper_pwd "ks_zookeeper_pwd" with
      | .error e => .error e
      | .ok kszp =>
        let p := dictSet p "ssl.quorum.keyStore.password" kszp
        let p := dictSet p "ssl.quorum.trustStore.location" (get_quorum_truststore cfg)
        let p := dictSet p "ssl.quorum.trustStore.password" tszp
        .ok (dictSet p "sslQuorum" "true")
  else .ok p0

/-- The property-assembly part of `_render_zk_properties` before the
readiness gate (charm.py lines 227-285): the data directories, then the
client-listener part, then the quorum-TLS part. -/
def zkPropsPre (cfg : Config) (env : Env) (ks : StoredState) :
    Except ChErr (List (String × String)) :=
  let props := dictSet (dictSet cfg.zookeeper_properties "dataDir" cfg.dataDir)
      "dataLogDir" cfg.dataLogDir
  match sRead ks.ssl_cert "ssl_cert", sRead ks.ssl_key "ssl_key" with
  | .error e, _ => .error e
  | _, .error e => .error e
  | .ok sc, .ok sk =>
    match zkClientProps cfg ks props sc sk with
    | .error e => .error e
    | .ok p0 => zkQuorumProps cfg env ks p0

/-- `ZookeeperCharm._render_zk_properties` (charm.py lines 227-302):
assemble the properties, then return the blocked status while the cluster
is not ready, else append the committed ensemble listing and render. -/
def render_zk_properties (cfg : Config) (env : Env) (ks : StoredState)
    (cl : ClusterState) : Except ChErr RenderOut :=
  match zkPropsPre cfg env ks with
  | .error e => .error e
  | .ok props =>
    if cl.is_ready then .ok (.rendered (serverLoop cl.get_peers props))
    else .ok (.blocked "Waiting for cluster to bootstrap")

/-- Result of one `_on_config_changed` cycle. -/
structure CycleResult where
  ks : StoredState
  ctr : Nat
  quorumWrite : Option KeystoreWrite
  sslWrite : Option KeystoreWrite
  out : RenderOut
deriving DecidableEq, Repr

/-- The keystore/properties core of `ZookeeperCharm._on_config_changed`
(charm.py lines 316-327): `_generate_keystores` runs synchronously before
`_render_zk_properties`.  The log4j rendering and service reload/restart
that follow are external side effects out of scope. -/
def on_config_changed (cfg : Config) (env : Env) (ks : StoredState) (ctr : Nat)
    (cl : ClusterState) : Except ChErr CycleResult :=
  match generate_keystores cfg env ks ctr with
  | .error e => .error e
  | .ok g =>
    match render_zk_properties cfg env g.ks cl with
    | .error e => .error e
    | .ok out => .ok ⟨g.ks, g.ctr, g.quorumWrite, g.sslWrite, out⟩

/-- A concrete collaborator environment for the `generate-root-ca` runs:
the self-signed generator returns the fixed pair `("CRT", "KEY")` and the
password stream is `pw0, pw1, ...`; base64 decoding is never consulted on
a non-empty input in these runs (and `b64decode "" = ""` as in Python). -/
def envGen : Env :=
  { b64decode := fun _ => "",
    generateSelfSigned := fun _ => ("CRT", "KEY"),
    genRandomPassword := fun i => "pw" ++ toString i }

/-- A concrete collaborator environment for the externally-supplied-material
runs.  `b64decode` is `base64.b64decode` tabulated on the base64 inputs
these runs use: `"YQ==" ↦ "a"`, `"Yg==" ↦ "b"`, `"Yw==" ↦ "c"`,
`"ZA==" ↦ "d"`, and `"" ↦ ""`. -/
def envB64 : Env :=
  { b64decode := fun s =>
      if s = "YQ==" then "a" else if s = "Yg==" then "b"
      else if s = "Yw==" then "c" else if s = "ZA==" then "d" else "",
    generateSelfSigned := fun _ => ("CRT", "KEY"),
    genRandomPassword := fun i => "rnd" ++ toString i }

/-- Baseline configuration: every optional key absent, plaintext, empty
external material. -/
def cfg0 : Config :=
  { generate_root_ca := false, ssl_cert := "", ssl_key := "",
    ssl_quorum_cert := "", ssl_quorum_key := "", keystore_path := none,
    truststore_path := none, quorum_keystore_path := none,
    quorum_truststore_path := none, clientPort := none, ssl_quorum := false,
    zookeeper_properties := [], dataDir := "/data/zookeeper",
    dataLogDir := "/datalog/zookeeper" }

/-- Configuration with `generate-root-ca` set. -/
def cfgGen : Config := { cfg0 with generate_root_ca := true }

/-- A ready three-member ensemble: self has id 1 and the expected size 3 is
met. -/
def clReady3 : ClusterState :=
  { expectedSize := 3, selfId := some 1, selfEndpoint := "host1:2888:3888",
    members := [⟨1, "host1:2888:3888"⟩, ⟨2, "host2:2888:3888"⟩,
                ⟨3, "host3:2888:3888"⟩] }

/-- A not-yet-ready ensemble: self has an id but only one member is known
of the expected three. -/
def clNotReady : ClusterState :=
  { expectedSize := 3, selfId := some 1, selfEndpoint := "host1:2888:3888",
    members := [⟨1, "host1:2888:3888"⟩] }

/-- Configuration supplying all four external materials (base64 for
`"a"`, `"b"`, `"c"`, `"d"`), with `generate-root-ca` unset. -/
def cfgExt : Config := { cfg0 with
  ssl_quorum_cert := "YQ==",
  ssl_quorum_key := "Yg==",
  ssl_cert := "Yw==",
  ssl_key := "ZA==" }

/-- Stored state in which the quorum material and the ssl certificate match
what `cfgExt` currently supplies, but the stored ssl key (`"OLD"`) differs
from the externally supplied one (`"d"`). -/
def ks1 : StoredState :=
  { quorum_cert := some "a", quorum_key := some "b", ssl_cert := some "c",
    ssl_key := some "OLD", ts_zookeeper_pwd := some "", ks_zookeeper_pwd := some "",
    ks_password := some "p0", ts_password := none }

/-- Stored state in which only the quorum certificate (`"z"`) differs from
what `cfgExt` supplies; the ssl material (`"c"`, `"d"`) is unchanged and its
keystore password is `"origpwd"`. -/
def ks2 : StoredState :=
  { quorum_cert := some "z", quorum_key := some "b", ssl_cert := some "c",
    ssl_key := some "d", ts_zookeeper_pwd := some "", ks_zookeeper_pwd := some "",
    ks_password := some "origpwd", ts_password := none }

/-- The stored state `generate_keystores cfgExt envB64 ks2 0` produces. -/
def ks2After : StoredState := { ks2 with
  quorum_cert := some "a",
  ks_zookeeper_pwd := some "rnd0",
  ks_password := some "rnd2" }

/-- Configuration supplying only one of the two fields in each scope: a
quorum certificate with no quorum key, and an ssl certificate with no ssl
key (`generate-root-ca` unset). -/
def cfg3 : Config := { cfg0 with
  ssl_quorum_cert := "YQ==",
  ssl_cert := "Yw==" }

/-- The stored state after `_generate_keystores` under `cfg3`: the material
fields were updated to the half-populated external values. -/
def ks3After : StoredState := { initState with
  quorum_cert := some "a",
  ssl_cert := some "c" }

/-- Configuration with `ssl_quorum` set while every external material is
empty and `generate-root-ca` is unset. -/
def cfg6 : Config := { cfg0 with ssl_quorum := true }

/-- Configuration with `ssl_quorum` set and complete external quorum
material, but no client/ssl material. -/
def cfgW6 : Config := { cfg0 with
  ssl_quorum_cert := "YQ==",
  ssl_quorum_key := "Yg==",
  ssl_quorum := true }

/-- The stored state `__init__` leaves behind on a fresh unit with
`generate-root-ca` set: both root CAs generated (`envGen` yields
`("CRT", "KEY")`), both keystore passwords drawn. -/
def ksGenAfter : StoredState :=
  { quorum_cert := some "CRT", quorum_key := some "KEY", ssl_cert := some "CRT",
    ssl_key := some "KEY", ts_zookeeper_pwd := some "", ks_zookeeper_pwd := some "pw0",
    ks_password := some "pw2", ts_password := none }

/-- The quorum keystore write of the fresh `generate-root-ca` run. -/
def wQGen : KeystoreWrite :=
  ⟨"/var/ssl/private/kafka_quorum_ks.jks", "pw0", "CRT", "KEY"⟩

/-- The ssl keystore write of the fresh `generate-root-ca` run. -/
def wSGen : KeystoreWrite :=
  ⟨"/var/ssl/private/kafka_ssl_ks.jks", "pw2", "CRT", "KEY"⟩

/-- The plaintext property set rendered for `cfg0` on the ready
three-member ensemble. -/
def propsPlain : List (String × String) :=
  [("dataDir", "/data/zookeeper"), ("dataLogDir", "/datalog/zookeeper"),
   ("ssl.clientAuth", "none"), ("clientPort", "2182"),
   ("server.1", "host1:2888:3888"), ("server.2", "host2:2888:3888"),
   ("server.3", "host3:2888:3888")]

/-- The property set rendered for `cfg6` (quorum TLS declared on, no
material, no keystore): note the empty quorum keystore password. -/
def props6 : List (String × String) :=
  [("dataDir", "/data/zookeeper"), ("dataLogDir", "/datalog/zookeeper"),
   ("ssl.clientAuth", "none"), ("clientPort", "2182"),
   ("serverCnxnFactory", "org.apache.zookeeper.server.NettyServerCnxnFactory"),
   ("ssl.quorum.keyStore.location", "/var/ssl/private/kafka_quorum_ks.jks"),
   ("ssl.quorum.keyStore.password", ""),
   ("ssl.quorum.trustStore.location", "/var/ssl/private,kafka_quorum_ts.jks"),
   ("ssl.quorum.trustStore.password", ""), ("sslQuorum", "true"),
   ("server.1", "host1:2888:3888"), ("server.2", "host2:2888:3888"),
   ("server.3", "host3:2888:3888")]

/-- The stored state after `_generate_keystores` under `cfgW6`. -/
def ksW6After : StoredState := { initState with
  quorum_cert := some "a",
  quorum_key := some "b",
  ks_zookeeper_pwd := some "rnd0" }

/-- The quorum keystore write performed under `cfgW6`. -/
def wQW6 : KeystoreWrite :=
  ⟨"/var/ssl/private/kafka_quorum_ks.jks", "rnd0", "a", "b"⟩

/-- The property set rendered for `cfgW6` on the ready three-member
ensemble: quorum TLS on, password freshly drawn. -/
def propsW6 : List (String × String) :=
  [("dataDir", "/data/zookeeper"), ("dataLogDir", "/datalog/zookeeper"),
   ("ssl.clientAuth", "none"), ("clientPort", "2182"),
   ("serverCnxnFactory", "org.apache.zookeeper.server.NettyServerCnxnFactory"),
   ("ssl.quorum.keyStore.location", "/var/ssl/private/kafka_quorum_ks.jks"),
   ("ssl.quorum.keyStore.password", "rnd0"),
   ("ssl.quorum.trustStore.location", "/var/ssl/private,kafka_quorum_ts.jks"),
   ("ssl.quorum.trustStore.password", ""), ("sslQuorum", "true"),
   ("server.1", "host1:2888:3888"), ("server.2", "host2:2888:3888"),
   ("server.3", "host3:2888:3888")]

/-- C1: evaluation of `_generate_keystores` at the failing input.  With
`generate-root-ca` unset and only the externally supplied ssl key changed
(stored `"OLD"` vs external `"d"`), the comparison at charm.py lines
140-143 — which checks `quorum_key` twice and never checks `ssl_key` —
takes the no-op early-return path: no stored field is updated and no
keystore is rebuilt, although one of the four externally supplied values
differs from the stored material. -/
theorem c1_ssl_key_change_missed :
    generate_keystores cfgExt envB64 ks1 0 = .ok ⟨ks1, 0, none, none⟩ ∧
    ks1.ssl_key ≠ some (envB64.b64decode cfgExt.ssl_key) := by decide

/-- C2 counterexample: a keystore is rebuilt although the material that
produced it did not change.  Under `cfgExt` with only the stored quorum
certificate differing, `_generate_keystores` rebuilds the ssl keystore too:
the ssl material (`"c"`, `"d"`) is identical before and after, yet an ssl
keystore write happens and `ks_password` is replaced by a fresh draw. -/
theorem c2_unchanged_ssl_material_rebuilt :
    generate_keystores cfgExt envB64 ks2 0 =
      .ok ⟨ks2After, 4, some ⟨"/var/ssl/private/kafka_quorum_ks.jks", "rnd0", "a", "b"⟩,
        some ⟨"/var/ssl/private/kafka_ssl_ks.jks", "rnd2", "c", "d"⟩⟩ ∧
    ks2After.ssl_cert = ks2.ssl_cert ∧ ks2After.ssl_key = ks2.ssl_key ∧
    ks2After.ks_password ≠ ks2.ks_password := by decide

/-- C3: evaluation at the failing input.  With each scope holding exactly
one of {certificate, key} (quorum certificate `"a"` with empty key, ssl
certificate `"c"` with empty key), `_generate_keystores` raises no error
and builds no keystore — the two independent length checks at charm.py
lines 151-152 and 166-167 silently skip both scopes — and the subsequent
`_render_zk_properties` still emits a (plaintext) configuration. -/
theorem c3_half_populated_material_silently_skipped :
    on_config_changed cfg3 envB64 initState 0 clReady3 =
      .ok ⟨ks3After, 0, none, none, .rendered propsPlain⟩ := by decide

/-- C4 counterexample: an invocation of `_render_zk_properties` while the
cluster is not ready that does not produce the blocked status but an
error.  The stored state is the one `__init__` itself produces on a fresh
unit with `generate-root-ca` set; because the client material is populated,
the client-TLS branch reads the never-assigned `ts_password` before the
readiness check is reached. -/
theorem c4_not_ready_error_not_blocked :
    clNotReady.is_ready = false ∧
    generate_keystores cfgGen envGen initState 0 =
      .ok ⟨ksGenAfter, 4, some wQGen, some wSGen⟩ ∧
    render_zk_properties cfgGen envGen ksGenAfter clNotReady =
      .error (.storedUnset "ts_password") := by decide

/-- C6 counterexample: a configuration is emitted in which quorum TLS is
declared enabled (`sslQuorum = "true"`) while no quorum keystore exists.
Under `cfg6` (`ssl_quorum` set, every external material empty) the
`_on_config_changed` cycle performs no keystore write at all — the stored
state is untouched — yet the rendered properties set `sslQuorum` to
`"true"` with an empty quorum keystore password. -/
theorem c6_ssl_quorum_without_keystore :
    on_config_changed cfg6 envB64 initState 0 clReady3 =
      .ok ⟨initState, 0, none, none, .rendered props6⟩ ∧
    dictGet props6 "sslQuorum" = some "true" ∧
    dictGet props6 "ssl.quorum.keyStore.password" = some "" := by decide

/-- C7: evaluation at the failing input.  In the scenario-B setting
(`generate-root-ca` set, ready three-member ensemble) the cycle fails at
the never-assigned `ts_password` stored field instead of emitting the
secure-client configuration; with client material absent (`cfg0`) the
rendered configuration carries the plaintext `clientPort` and
`ssl.clientAuth = none`. -/
theorem c7_client_tls_scenario_fails_at_ts_password :
    on_config_changed cfgGen envGen initState 0 clReady3 =
      .error (.storedUnset "ts_password") ∧
    render_zk_properties cfg0 envB64 initState clReady3 =
      .ok (.rendered propsPlain) ∧
    dictGet propsPlain "ssl.clientAuth" = some "none" ∧
    dictGet propsPlain "clientPort" = some "2182" := by decide

theorem find_map_set (d : List (String × String)) (k v : String) :
    (d.map (fun p => if p.1 == k then (k, v) else p)).find? (fun p => p.1 == k) =
      if d.any (fun p => p.1 == k) then some (k, v) else none := by
  induction d with
  | nil => rfl
  | cons a d ih =>
    by_cases hak : (a.1 == k) = true
    · simp only [List.map_cons, hak, if_pos, List.any_cons, Bool.true_or]
      exact List.find?_cons_of_pos _ (by simp)
    · simp only [List.map_cons, hak, if_neg, Bool.false_eq_true, not_false_iff,
        List.any_cons, Bool.false_or]
      rw [List.find?_cons_of_neg _ (by simp_all), ih]

theorem find_map_set_ne (d : List (String × String)) (k1 v k : String)
    (hk : k1 ≠ k) :
    (d.map (fun p => if p.1 == k1 then (k1, v) else p)).find? (fun p => p.1 == k) =
      d.find? (fun p => p.1 == k) := by
  induction d with
  | nil => rfl
  | cons a d ih =>
    by_cases hak : (a.1 == k1) = true
    · have ha : a.1 = k1 := by simpa using hak
      have h1 : (k1 == k) = false := by simp [hk]
      have h2 : (a.1 == k) = false := by simp [ha, hk]
      simp only [List.map_cons, hak, if_pos, List.find?_cons, h1, h2, ih]
    · simp only [List.map_cons, hak, if_neg, Bool.false_eq_true, not_false_iff,
        List.find?_cons]
      cases hk2 : (a.1 == k)
      · simpa only [hk2] using ih
      · simp only [hk2]

theorem dictGet_dictSet_self (d : List (String × String)) (k v : String) :
    dictGet (dictSet d k v) k = some v := by
  unfold dictGet dictSet
  split
  · rename_i hany
    rw [find_map_set, if_pos hany]
    rfl
  · rename_i hany
    rw [List.find?_append, List.find?_eq_none.2 (fun p hp hpk =>
      hany (List.any_eq_true.2 ⟨p, hp, hpk⟩))]
    simp [List.find?]

theorem dictGet_dictSet_ne (d : List (String × String)) (k1 v k : String)
    (hk : k1 ≠ k) :
    dictGet (dictSet d k1 v) k = dictGet d k := by
  unfold dictGet dictSet
  split
  · rw [find_map_set_ne d k1 v k hk]
  · rw [List.find?_append]
    have hf : (k1 == k) = false := by simp [hk]
    have : List.find? (fun p => p.1 == k) [(k1, v)] = none := by
      simp [List.find?_cons, hf]
    rw [this]
    cases List.find? (fun p => p.1 == k) d <;> rfl

theorem serverKey_ne_of_snd_char (i : Nat) (k : String)
    (hc : k.data.get? 1 ≠ some 'e') : serverKey i ≠ k := by
  intro h
  have hd := congrArg String.data h
  unfold serverKey at hd
  rw [String.data_append] at hd
  have hs : "server.".data = ['s', 'e', 'r', 'v', 'e', 'r', '.'] := rfl
  rw [hs] at hd
  simp only [List.cons_append, List.nil_append] at hd
  apply hc
  rw [← hd]
  rfl

theorem dictGet_serverLoop (peers : List ClusterMember) (d : List (String × String))
    (k : String) (h : ∀ i : Nat, serverKey i ≠ k) :
    dictGet (serverLoop peers d) k = dictGet d k := by
  induction peers generalizing d with
  | nil => rfl
  | cons m peers ih =>
    show dictGet (serverLoop peers (dictSet d (serverKey m.myid) m.endpoint)) k = _
    rw [ih (dictSet d (serverKey m.myid) m.endpoint),
      dictGet_dictSet_ne d (serverKey m.myid) m.endpoint k (h m.myid)]

theorem quorumKsStep_spec (cfg : Config) (env : Env) (ks : StoredState) (ctr : Nat)
    (ks1 : StoredState) (ctr1 : Nat) (qw : Option KeystoreWrite)
    (h : quorumKsStep cfg env ks ctr = .ok (ks1, ctr1, qw)) :
    ks1.quorum_cert = ks.quorum_cert ∧ ks1.quorum_key = ks.quorum_key ∧
    ks1.ssl_cert = ks.ssl_cert ∧ ks1.ssl_key = ks.ssl_key ∧
    ks1.ks_password = ks.ks_password ∧ ks1.ts_password = ks.ts_password ∧
    (∀ w, qw = some w → ks1.ks_zookeeper_pwd = some w.password ∧
      w.path = get_quorum_keystore cfg) := by
  cases hqc : ks.quorum_cert with
  | none => simp [quorumKsStep, sRead, hqc] at h
  | some qc =>
  cases hqk : ks.quorum_key with
  | none => simp [quorumKsStep, sRead, hqc, hqk] at h
  | some qk =>
  simp only [quorumKsStep, sRead, hqc, hqk, get_quorum_cert, get_quorum_key] at h
  split at h
  · cases hg : cfg.generate_root_ca <;>
      simp only [hg, Bool.false_eq_true, if_pos, if_neg, sRead, hqc, hqk,
        not_false_iff] at h <;>
    · simp only [Except.ok.injEq, Prod.mk.injEq] at h
      obtain ⟨h1, h2, h3⟩ := h
      subst h1; subst h2; subst h3
      refine ⟨?_, ?_, ?_, ?_, ?_, ?_, ?_⟩ <;>
        first
        | rfl
        | simp [hqc]
        | simp [hqk]
        | (intro w hw; cases hw; exact ⟨rfl, rfl⟩)
  · simp only [Except.ok.injEq, Prod.mk.injEq] at h
    obtain ⟨h1, h2, h3⟩ := h
    subst h1; subst h2; subst h3
    refine ⟨?_, ?_, ?_, ?_, ?_, ?_, ?_⟩ <;>
      first
      | rfl
      | simp [hqc]
      | simp [hqk]
      | (intro w hw; cases hw; exact ⟨rfl, rfl⟩)
      | (intro w hw; cases hw)

theorem sslKsStep_spec (cfg : Config) (env : Env) (ks : StoredState) (ctr : Nat)
    (ks1 : StoredState) (ctr1 : Nat) (sw : Option KeystoreWrite)
    (h : sslKsStep cfg env ks ctr = .ok (ks1, ctr1, sw)) :
    ks1.quorum_cert = ks.quorum_cert ∧ ks1.quorum_key = ks.quorum_key ∧
    ks1.ssl_cert = ks.ssl_cert ∧ ks1.ssl_key = ks.ssl_key ∧
    ks1.ks_zookeeper_pwd = ks.ks_zookeeper_pwd ∧ ks1.ts_password = ks.ts_password ∧
    (∀ sc sk, ks.ssl_cert = some sc → ks.ssl_key = some sk →
      0 < sc.length → 0 < sk.length → ks1.ks_password.isSome = true) := by
  cases hsc : ks.ssl_cert with
  | none => simp [sslKsStep, sRead, hsc] at h
  | some sc0 =>
  cases hsk : ks.ssl_key with
  | none => simp [sslKsStep, sRead, hsc, hsk] at h
  | some sk0 =>
  simp only [sslKsStep, sRead, hsc, hsk, get_ssl_cert, get_ssl_key] at h
  split at h
  · cases hg : cfg.generate_root_ca <;>
      simp only [hg, Bool.false_eq_true, if_pos, if_neg, sRead, hsc, hsk,
        not_false_iff] at h <;>
    · simp only [Except.ok.injEq, Prod.mk.injEq] at h
      obtain ⟨h1, h2, h3⟩ := h
      subst h1; subst h2; subst h3
      refine ⟨?_, ?_, ?_, ?_, ?_, ?_, ?_⟩ <;>
        first
        | rfl
        | simp [hsc]
        | simp [hsk]
        | (intro _ _ _ _ _ _; rfl)
  · rename_i hguard
    simp only [Except.ok.injEq, Prod.mk.injEq] at h
    obtain ⟨h1, h2, h3⟩ := h
    subst h1; subst h2; subst h3
    refine ⟨?_, ?_, ?_, ?_, ?_, ?_, ?_⟩ <;>
      first
      | rfl
      | (simp [hsc]; done)
      | (simp [hsk]; done)
      | (intro sc sk h1 h2 h3 h4
         simp only [hsc, Option.some.injEq] at h1
         simp only [hsk, Option.some.injEq] at h2
         subst h1
         subst h2
         exact absurd ⟨h3, h4⟩ hguard)

theorem buildKeystores_spec (cfg : Config) (env : Env) (ks : StoredState) (ctr : Nat)
    (r : GenResult) (h : buildKeystores cfg env ks ctr = .ok r) :
    r.ks.quorum_cert = ks.quorum_cert ∧ r.ks.quorum_key = ks.quorum_key ∧
    r.ks.ssl_cert = ks.ssl_cert ∧ r.ks.ssl_key = ks.ssl_key ∧
    r.ks.ts_password = ks.ts_password ∧
    (∀ w, r.quorumWrite = some w → r.ks.ks_zookeeper_pwd = some w.password ∧
      w.path = get_quorum_keystore cfg) ∧
    (∀ sc sk, ks.ssl_cert = some sc → ks.ssl_key = some sk →
      0 < sc.length → 0 < sk.length → r.ks.ks_password.isSome = true) := by
  unfold buildKeystores at h
  split at h
  · exact absurd h (by simp)
  · rename_i ks1 ctr1 qw hq
    split at h
    · exact absurd h (by simp)
    · rename_i ks2 ctr2 sw hs
      simp only [Except.ok.injEq] at h
      subst h
      obtain ⟨q1, q2, q3, q4, q5, q6, q7⟩ := quorumKsStep_spec cfg env ks ctr ks1 ctr1 qw hq
      obtain ⟨s1, s2, s3, s4, s5, s6, s7⟩ := sslKsStep_spec cfg env ks1 ctr1 ks2 ctr2 sw hs
      refine ⟨s1.trans q1, s2.trans q2, s3.trans q3, s4.trans q4, s6.trans q6, ?_, ?_⟩
      · intro w hw
        obtain ⟨hp, hpath⟩ := q7 w hw
        exact ⟨s5.trans hp, hpath⟩
      · intro sc sk hsc hsk hlc hlk
        exact s7 sc sk (q3.trans hsc) (q4.trans hsk) hlc hlk

/-- C2 (amended): rerunning `_generate_keystores` on its own output with
the same configuration and environment is a no-op — no keystore write
happens and the stored state (in particular both keystore passwords) is
returned unchanged.  The hypothesis says the self-signed generator never
returns an empty certificate or key. -/
theorem c2_generate_keystores_rerun_noop (cfg : Config) (env : Env)
    (ks : StoredState) (ctr : Nat) (r : GenResult)
    (hgen : ∀ c, 0 < (env.generateSelfSigned c).1.length ∧
      0 < (env.generateSelfSigned c).2.length)
    (h : generate_keystores cfg env ks ctr = .ok r) :
    generate_keystores cfg env r.ks r.ctr = .ok ⟨r.ks, r.ctr, none, none⟩ := by
  unfold generate_keystores at h
  by_cases hg : cfg.generate_root_ca
  · rw [if_pos hg] at h
    cases hqc : ks.quorum_cert with
    | none => simp [sRead, hqc] at h
    | some qc =>
    cases hqk : ks.quorum_key with
    | none => simp [sRead, hqc, hqk] at h
    | some qk =>
    cases hsc : ks.ssl_cert with
    | none => simp [sRead, hqc, hqk, hsc] at h
    | some sc =>
    cases hsk : ks.ssl_key with
    | none => simp [sRead, hqc, hqk, hsc, hsk] at h
    | some sk =>
    simp only [sRead, hqc, hqk, hsc, hsk] at h
    split at h
    · rename_i hG
      simp only [Except.ok.injEq] at h
      subst h
      unfold generate_keystores
      rw [if_pos hg]
      simp only [sRead, hqc, hqk, hsc, hsk]
      rw [if_pos hG]
    · rename_i hG
      obtain ⟨b1, b2, b3, b4, _, _, _⟩ := buildKeystores_spec _ _ _ _ _ h
      unfold generate_keystores
      rw [if_pos hg]
      simp only [sRead] at b1 b2 b3 b4 ⊢
      rw [b1, b2, b3, b4]
      simp only []
      rw [if_pos ⟨(hgen "quorum-zookeeper-root-ca").1, (hgen "quorum-zookeeper-root-ca").2,
        (hgen "ssl-zookeeper-root-ca").1, (hgen "ssl-zookeeper-root-ca").2⟩]
  · rw [if_neg hg] at h
    cases hqc : ks.quorum_cert with
    | none => simp [sRead, hqc] at h
    | some qc =>
    cases hqk : ks.quorum_key with
    | none => simp [sRead, hqc, hqk] at h
    | some qk =>
    cases hsc : ks.ssl_cert with
    | none => simp [sRead, hqc, hqk, hsc] at h
    | some sc =>
    simp only [sRead, hqc, hqk, hsc, get_quorum_cert, get_quorum_key, get_ssl_cert,
      get_ssl_key, hg, Bool.false_eq_true, if_neg, not_false_iff] at h
    split at h
    · rename_i hC
      simp only [Except.ok.injEq] at h
      subst h
      unfold generate_keystores
      rw [if_neg hg]
      simp only [sRead, hqc, hqk, hsc, get_quorum_cert, get_quorum_key, get_ssl_cert,
        hg, Bool.false_eq_true, if_neg, not_false_iff]
      rw [if_pos hC]
    · rename_i hC
      obtain ⟨b1, b2, b3, b4, _, _, _⟩ := buildKeystores_spec _ _ _ _ _ h
      unfold generate_keystores
      rw [if_neg hg]
      simp only [sRead] at b1 b2 b3 ⊢
      rw [b1, b2, b3]
      simp [get_quorum_cert, get_quorum_key, get_ssl_cert, hg]

theorem generate_keystores_build_or_noop (cfg : Config) (env : Env)
    (ks : StoredState) (ctr : Nat) (r : GenResult)
    (h : generate_keystores cfg env ks ctr = .ok r) :
    r = ⟨ks, ctr, none, none⟩ ∨
    ∃ ksG, ksG.ts_password = ks.ts_password ∧
      buildKeystores cfg env ksG ctr = .ok r := by
  unfold generate_keystores at h
  by_cases hg : cfg.generate_root_ca
  · rw [if_pos hg] at h
    cases hqc : ks.quorum_cert with
    | none => simp [sRead, hqc] at h
    | some qc =>
    cases hqk : ks.quorum_key with
    | none => simp [sRead, hqc, hqk] at h
    | some qk =>
    cases hsc : ks.ssl_cert with
    | none => simp [sRead, hqc, hqk, hsc] at h
    | some sc =>
    cases hsk : ks.ssl_key with
    | none => simp [sRead, hqc, hqk, hsc, hsk] at h
    | some sk =>
    simp only [sRead, hqc, hqk, hsc, hsk] at h
    split at h
    · simp only [Except.ok.injEq] at h
      exact Or.inl h.symm
    · refine Or.inr ⟨_, ?_, h⟩
      rfl
  · rw [if_neg hg] at h
    cases hqc : ks.quorum_cert with
    | none => simp [sRead, hqc] at h
    | some qc =>
    cases hqk : ks.quorum_key with
    | none => simp [sRead, hqc, hqk] at h
    | some qk =>
    cases hsc : ks.ssl_cert with
    | none => simp [sRead, hqc, hqk, hsc] at h
    | some sc =>
    simp only [sRead, hqc, hqk, hsc, get_quorum_cert, get_quorum_key, get_ssl_cert,
      get_ssl_key, hg, Bool.false_eq_true, if_neg, not_false_iff] at h
    split at h
    · simp only [Except.ok.injEq] at h
      exact Or.inl h.symm
    · refine Or.inr ⟨_, ?_, h⟩
      rfl

theorem zkClientProps_ts_error (cfg : Config) (ks : StoredState)
    (props : List (String × String)) (sc sk : String)
    (hlc : 0 < sc.length) (hlk : 0 < sk.length)
    (hkp : ks.ks_password.isSome = true) (hts : ks.ts_password = none) :
    zkClientProps cfg ks props sc sk = .error (.storedUnset "ts_password") := by
  obtain ⟨kp, hkp2⟩ := Option.isSome_iff_exists.1 hkp
  unfold zkClientProps
  rw [if_pos ⟨hlc, hlk⟩]
  simp only [sRead, hkp2, hts]

theorem zkPropsPre_ts_error (cfg : Config) (env : Env) (ks : StoredState)
    (sc sk : String) (hsc : ks.ssl_cert = some sc) (hsk : ks.ssl_key = some sk)
    (hlc : 0 < sc.length) (hlk : 0 < sk.length)
    (hkp : ks.ks_password.isSome = true) (hts : ks.ts_password = none) :
    zkPropsPre cfg env ks = .error (.storedUnset "ts_password") := by
  unfold zkPropsPre
  simp only [sRead, hsc, hsk]
  rw [zkClientProps_ts_error cfg ks _ sc sk hlc hlk hkp hts]

theorem render_ts_error (cfg : Config) (env : Env) (ks : StoredState)
    (cl : ClusterState) (sc sk : String)
    (hsc : ks.ssl_cert = some sc) (hsk : ks.ssl_key = some sk)
    (hlc : 0 < sc.length) (hlk : 0 < sk.length)
    (hkp : ks.ks_password.isSome = true) (hts : ks.ts_password = none) :
    render_zk_properties cfg env ks cl = .error (.storedUnset "ts_password") := by
  unfold render_zk_properties
  rw [zkPropsPre_ts_error cfg env ks sc sk hsc hsk hlc hlk hkp hts]

/-- C9: no operation of this program ever assigns `ts_password`: on every
reachable stored state it is still unassigned, and whenever the stored
client TLS material is populated, `_render_zk_properties` (which reads
`self.ks.ts_password` at charm.py line 253) fails on the uninitialized
field rather than completing. -/
theorem c9_ts_password_never_assigned (ks : StoredState) (h : ReachableKS ks) :
    ks.ts_password = none ∧
    ∀ (cfg : Config) (env : Env) (cl : ClusterState) (sc sk : String),
      ks.ssl_cert = some sc → ks.ssl_key = some sk →
      0 < sc.length → 0 < sk.length →
      render_zk_properties cfg env ks cl = .error (.storedUnset "ts_password") := by
  have inv : ks.ts_password = none ∧
      (∀ sc sk, ks.ssl_cert = some sc → ks.ssl_key = some sk →
        0 < sc.length → 0 < sk.length → ks.ks_password.isSome = true) := by
    induction h with
    | init =>
      refine ⟨rfl, ?_⟩
      intro sc sk hc hk h1 h2
      rw [show initState.ssl_cert = some "" from rfl] at hc
      cases hc
      exact absurd h1 (by decide)
    | step cfg env ks0 ctr r hr hgen ih =>
      rcases generate_keystores_build_or_noop _ _ _ _ _ hgen with hno | ⟨ksG, hts, hb⟩
      · rw [hno]
        exact ih
      · obtain ⟨b1, b2, b3, b4, b5, b6, b7⟩ := buildKeystores_spec _ _ _ _ _ hb
        refine ⟨?_, ?_⟩
        · rw [b5, hts]
          exact ih.1
        · intro sc sk hc hk l1 l2
          exact b7 sc sk (b3.symm.trans hc) (b4.symm.trans hk) l1 l2
  refine ⟨inv.1, ?_⟩
  intro cfg env cl sc sk hsc hsk hlc hlk
  exact render_ts_error cfg env ks cl sc sk hsc hsk hlc hlk
    (inv.2 sc sk hsc hsk hlc hlk) inv.1

/-- C9 witness: the state `__init__` produces on a fresh unit with
`generate-root-ca` set is reachable, holds populated client material, and
`_render_zk_properties` on it fails at the `ts_password` read. -/
theorem c9_ts_password_never_assigned_witness :
    ksGenAfter.ts_password = none ∧
    render_zk_properties cfg0 envGen ksGenAfter clReady3 =
      .error (.storedUnset "ts_password") := by
  have hreach : ReachableKS ksGenAfter :=
    ReachableKS.step cfgGen envGen initState 0 ⟨ksGenAfter, 4, some wQGen, some wSGen⟩
      ReachableKS.init (by decide)
  have hthm := c9_ts_password_never_assigned ksGenAfter hreach
  exact ⟨hthm.1, hthm.2 cfg0 envGen clReady3 "CRT" "KEY" (by decide) (by decide)
    (by decide) (by decide)⟩

/-- C4 (amended): while the cluster is not ready, configuration synthesis
never emits a committed ensemble listing — no `rendered` outcome is
possible and `_render_zk_properties` returns before the `server.<myid>`
loop and the `render` call — and every non-error outcome is the blocked
status; an uninitialized stored-field read in the TLS branches can,
however, produce an error instead of the blocked status. -/
theorem c4_not_ready_never_renders (cfg : Config) (env : Env) (ks : StoredState)
    (cl : ClusterState) (h : cl.is_ready = false) :
    (∀ props, render_zk_properties cfg env ks cl ≠ .ok (.rendered props)) ∧
    (∀ r, render_zk_properties cfg env ks cl = .ok r →
      r = .blocked "Waiting for cluster to bootstrap") := by
  unfold render_zk_properties
  cases hz : zkPropsPre cfg env ks with
  | error e =>
    exact ⟨fun props hp => by simp at hp, fun r hr => by simp at hr⟩
  | ok p =>
    refine ⟨fun props hp => ?_, fun r hr => ?_⟩
    · rw [h] at hp
      simp at hp
    · rw [h] at hr
      simp at hr
      exact hr.symm

/-- C4 witness: a concrete not-ready invocation that renders nothing. -/
theorem c4_not_ready_never_renders_witness :
    render_zk_properties cfg0 envB64 initState clNotReady ≠
      .ok (.rendered propsPlain) :=
  (c4_not_ready_never_renders cfg0 envB64 initState clNotReady (by decide)).1 propsPlain

theorem zkQuorumProps_keys (cfg : Config) (env : Env) (ks : StoredState)
    (p0 p : List (String × String)) (z : String)
    (hq : cfg.ssl_quorum = true) (hz : ks.ks_zookeeper_pwd = some z)
    (h : zkQuorumProps cfg env ks p0 = .ok p) :
    dictGet p "ssl.quorum.keyStore.password" = some z ∧
    dictGet p "ssl.quorum.keyStore.location" = some (get_quorum_keystore cfg) := by
  unfold zkQuorumProps at h
  rw [if_pos hq] at h
  simp only [sRead, hz] at h
  split at h
  · exact absurd h (by simp)
  · exact absurd h (by simp)
  · simp only [Except.ok.injEq] at h
    subst h
    constructor
    · rw [dictGet_dictSet_ne _ _ _ _ (by decide),
        dictGet_dictSet_ne _ _ _ _ (by decide),
        dictGet_dictSet_ne _ _ _ _ (by decide),
        dictGet_dictSet_self]
    · rw [dictGet_dictSet_ne _ _ _ _ (by decide),
        dictGet_dictSet_ne _ _ _ _ (by decide),
        dictGet_dictSet_ne _ _ _ _ (by decide),
        dictGet_dictSet_ne _ _ _ _ (by decide),
        dictGet_dictSet_self]

theorem zkPropsPre_to_quorum (cfg : Config) (env : Env) (ks : StoredState)
    (p : List (String × String)) (h : zkPropsPre cfg env ks = .ok p) :
    ∃ p0, zkQuorumProps cfg env ks p0 = .ok p := by
  unfold zkPropsPre at h
  split at h
  · exact absurd h (by simp)
  · exact absurd h (by simp)
  · simp only [] at h
    split at h
    · exact absurd h (by simp)
    · exact ⟨_, h⟩

/-- C6 (amended): keystore generation runs synchronously before property
rendering inside `_on_config_changed`; consequently, whenever a cycle
rebuilds the quorum keystore and emits a rendered configuration with
`ssl_quorum` configured, the emitted quorum keystore location and password
are exactly the path and the fresh password of that cycle's keystore
write.  (The converse guard is absent: `ssl_quorum` with empty quorum
material emits `sslQuorum = "true"` with no keystore at all — see the
counterexample theorem.) -/
theorem c6_quorum_keys_match_fresh_write (cfg : Config) (env : Env)
    (ks : StoredState) (ctr : Nat) (cl : ClusterState) (res : CycleResult)
    (p : List (String × String)) (w : KeystoreWrite)
    (h : on_config_changed cfg env ks ctr cl = .ok res)
    (hq : cfg.ssl_quorum = true) (hw : res.quorumWrite = some w)
    (hout : res.out = .rendered p) :
    dictGet p "ssl.quorum.keyStore.location" = some w.path ∧
    dictGet p "ssl.quorum.keyStore.password" = some w.password := by
  unfold on_config_changed at h
  split at h
  · exact absurd h (by simp)
  · rename_i g hgen
    split at h
    · exact absurd h (by simp)
    · rename_i out hrender
      simp only [Except.ok.injEq] at h
      subst h
      rcases generate_keystores_build_or_noop _ _ _ _ _ hgen with hno | ⟨ksG, _, hb⟩
      · rw [hno] at hw
        exact absurd hw (by simp)
      · obtain ⟨_, _, _, _, _, b6, _⟩ := buildKeystores_spec _ _ _ _ _ hb
        obtain ⟨hz, hpath⟩ := b6 w hw
        unfold render_zk_properties at hrender
        cases hzp : zkPropsPre cfg env g.ks with
        | error e =>
          rw [hzp] at hrender
          exact absurd hrender (by simp)
        | ok props =>
          rw [hzp] at hrender
          simp only [] at hrender
          split at hrender
          · simp only [Except.ok.injEq] at hrender
            rw [← hrender] at hout
            have hp : p = serverLoop cl.get_peers props := by
              cases hout
              rfl
            obtain ⟨p0, hqp⟩ := zkPropsPre_to_quorum cfg env g.ks props hzp
            obtain ⟨k1, k2⟩ := zkQuorumProps_keys cfg env g.ks p0 props w.password hq hz hqp
            subst hp
            rw [dictGet_serverLoop _ _ _
                (fun i => serverKey_ne_of_snd_char i _ (by decide)),
              dictGet_serverLoop _ _ _
                (fun i => serverKey_ne_of_snd_char i _ (by decide))]
            exact ⟨hpath ▸ k2, k1⟩
          · simp only [Except.ok.injEq] at hrender
            rw [← hrender] at hout
            exact absurd hout (by simp)

/-- C6 witness: a concrete cycle (external quorum material present,
`ssl_quorum` configured, ready ensemble) in which the quorum keystore is
rebuilt and the rendered configuration carries exactly that write's path
and password. -/
theorem c6_quorum_keys_match_fresh_write_witness :
    dictGet propsW6 "ssl.quorum.keyStore.location" = some wQW6.path ∧
    dictGet propsW6 "ssl.quorum.keyStore.password" = some wQW6.password :=
  c6_quorum_keys_match_fresh_write cfgW6 envB64 initState 0 clReady3
    ⟨ksW6After, 2, some wQW6, none, .rendered propsW6⟩ propsW6 wQW6
    (by decide) (by decide) rfl rfl

/-- C2 witness: rerunning `_generate_keystores` on the concrete output of
the fresh `generate-root-ca` run is a no-op. -/
theorem c2_generate_keystores_rerun_noop_witness :
    generate_keystores cfgGen envGen ksGenAfter 4 =
      .ok ⟨ksGenAfter, 4, none, none⟩ :=
  c2_generate_keystores_rerun_noop cfgGen envGen initState 0
    ⟨ksGenAfter, 4, some wQGen, some wSGen⟩
    (fun _ => ⟨(by decide : 0 < ("CRT" : String).length),
      (by decide : 0 < ("KEY" : String).length)⟩) (by decide)

/-- C10: with the path configuration keys absent, the client truststore
path equals the client keystore path (both default to
`/var/ssl/private/kafka_ssl_ks.jks`, so keystore and truststore share one
file), and the quorum truststore default is the literal
`/var/ssl/private,kafka_quorum_ts.jks` — comma, not slash — which is not
under the `/var/ssl/private/` directory created by `__init__`. -/
theorem c10_default_truststore_paths (cfg : Config)
    (h1 : cfg.keystore_path = none) (h2 : cfg.truststore_path = none)
    (h3 : cfg.quorum_truststore_path = none) :
    get_ssl_truststore cfg = get_ssl_keystore cfg ∧
    get_ssl_truststore cfg = "/var/ssl/private/kafka_ssl_ks.jks" ∧
    get_quorum_truststore cfg = "/var/ssl/private,kafka_quorum_ts.jks" ∧
    ∀ s : String, get_quorum_truststore cfg ≠ "/var/ssl/private/" ++ s := by
  refine ⟨?_, ?_, ?_, ?_⟩
  · simp [get_ssl_truststore, get_ssl_keystore, h1, h2]
  · simp [get_ssl_truststore, h2]
  · simp [get_quorum_truststore, h3]
  · intro s hEq
    simp only [get_quorum_truststore, h3, Option.getD_none] at hEq
    have hd := congrArg String.data hEq
    rw [String.data_append] at hd
    have h16 := congrArg (fun l => List.take 17 l) hd
    simp only [] at h16
    rw [show (17 : Nat) = ("/var/ssl/private/").data.length from rfl,
      List.take_left] at h16
    exact absurd h16 (by decide)

/-- C10 witness: the default paths at the baseline configuration. -/
theorem c10_default_truststore_paths_witness :
    get_ssl_truststore cfg0 = get_ssl_keystore cfg0 ∧
    get_quorum_truststore cfg0 = "/var/ssl/private,kafka_quorum_ts.jks" :=
  ⟨(c10_default_truststore_paths cfg0 rfl rfl rfl).1,
   (c10_default_truststore_paths cfg0 rfl rfl rfl).2.2.1⟩

/-- Strict version of the member ordering. -/
def memberLt (a b : ClusterMember) : Prop := a.myid < b.myid

instance : IsAntisymm ClusterMember memberLt :=
  ⟨fun _ _ h1 h2 => absurd h2 (Nat.lt_asymm h1)⟩

theorem sorted_lt_of_sorted_le (l : List ClusterMember)
    (hs : List.Sorted memberLe l) (hnd : (l.map ClusterMember.myid).Nodup) :
    List.Sorted memberLt l := by
  have hne : List.Pairwise (fun a b : ClusterMember => a.myid ≠ b.myid) l :=
    List.pairwise_map.1 hnd
  exact (hs.and hne).imp fun h => Nat.lt_of_le_of_ne h.1 h.2

theorem insertionSort_perm_eq (l1 l2 : List ClusterMember)
    (hp : l1.Perm l2) (hnd : (l1.map ClusterMember.myid).Nodup) :
    List.insertionSort memberLe l1 = List.insertionSort memberLe l2 := by
  have p1 := List.perm_insertionSort memberLe l1
  have p2 := List.perm_insertionSort memberLe l2
  have hnd1 : ((List.insertionSort memberLe l1).map ClusterMember.myid).Nodup :=
    ((p1.map ClusterMember.myid).symm).nodup hnd
  have hndl2 : (l2.map ClusterMember.myid).Nodup :=
    (hp.map ClusterMember.myid).nodup hnd
  have hnd2 : ((List.insertionSort memberLe l2).map ClusterMember.myid).Nodup :=
    ((p2.map ClusterMember.myid).symm).nodup hndl2
  exact List.eq_of_perm_of_sorted (p1.trans (hp.trans p2.symm))
    (sorted_lt_of_sorted_le _ (List.sorted_insertionSort memberLe l1) hnd1)
    (sorted_lt_of_sorted_le _ (List.sorted_insertionSort memberLe l2) hnd2)

/-- C5: configuration synthesis is deterministic in the recording order of
the peers: on a ready ensemble, two member lists that are permutations of
each other (with distinct member ids) synthesize identical output, and the
peer snapshot driving the `server.<myid>` entries is strictly ascending by
member id — so the committed entries are emitted in ascending order
whatever order the peers were recorded in.  (Repeated calls on the same
inputs are literally the same value of the pure function
`render_zk_properties`.) -/
theorem c5_render_deterministic_sorted (cfg : Config) (env : Env)
    (ks : StoredState) (cl : ClusterState) (l1 l2 : List ClusterMember)
    (hperm : l1.Perm l2) (hnd : (l1.map ClusterMember.myid).Nodup)
    (hready : ClusterState.is_ready { cl with members := l1 } = true) :
    render_zk_properties cfg env ks { cl with members := l1 } =
      render_zk_properties cfg env ks { cl with members := l2 } ∧
    List.Sorted memberLt (ClusterState.get_peers { cl with members := l1 }) := by
  have hpeq : ClusterState.get_peers { cl with members := l1 } =
      ClusterState.get_peers { cl with members := l2 } :=
    insertionSort_perm_eq l1 l2 hperm hnd
  have hready2 : ClusterState.is_ready { cl with members := l2 } = true := by
    simp only [ClusterState.is_ready] at hready ⊢
    rw [← hperm.length_eq]
    exact hready
  constructor
  · unfold render_zk_properties
    cases hz : zkPropsPre cfg env ks with
    | error e => rfl
    | ok p =>
      rw [hready, hready2, hpeq]
  · show List.Sorted memberLt (List.insertionSort memberLe l1)
    exact sorted_lt_of_sorted_le _ (List.sorted_insertionSort memberLe l1)
      (((List.perm_insertionSort memberLe l1).map ClusterMember.myid).symm.nodup hnd)

/-- The three ready members recorded out of order. -/
def membersUnsorted : List ClusterMember :=
  [⟨3, "host3:2888:3888"⟩, ⟨1, "host1:2888:3888"⟩, ⟨2, "host2:2888:3888"⟩]

/-- C5 witness: recording the three members out of order synthesizes the
same output as recording them in order, and the snapshot is ascending. -/
theorem c5_render_deterministic_sorted_witness :
    render_zk_properties cfg0 envB64 initState
        { clReady3 with members := membersUnsorted } =
      render_zk_properties cfg0 envB64 initState
        { clReady3 with members := clReady3.members } ∧
    List.Sorted memberLt
      (ClusterState.get_peers { clReady3 with members := membersUnsorted }) :=
  c5_render_deterministic_sorted cfg0 envB64 initState clReady3
    membersUnsorted clReady3.members (by decide) (by decide) (by decide)

theorem smallestFrom_ge (l : List Nat) (start fuel : Nat) :
    start ≤ smallestFrom l start fuel := by
  induction fuel generalizing start with
  | zero => exact Nat.le_refl _
  | succ fuel ih =>
    unfold smallestFrom
    split
    · exact Nat.le_trans (Nat.le_succ start) (ih (start + 1))
    · exact Nat.le_refl _

theorem smallestFrom_below_mem (l : List Nat) (start fuel j : Nat)
    (h1 : start ≤ j) (h2 : j < smallestFrom l start fuel) : j ∈ l := by
  induction fuel generalizing start with
  | zero =>
    unfold smallestFrom at h2
    omega
  | succ fuel ih =>
    unfold smallestFrom at h2
    split at h2
    · rename_i hmem
      by_cases he : j = start
      · exact he ▸ hmem
      · exact ih (start + 1) (by omega) h2
    · omega

theorem smallestFrom_not_mem (l : List Nat) (start fuel : Nat)
    (h : ∃ k, start ≤ k ∧ k < start + fuel ∧ k ∉ l) :
    smallestFrom l start fuel ∉ l := by
  induction fuel generalizing start with
  | zero =>
    obtain ⟨k, h1, h2, _⟩ := h
    omega
  | succ fuel ih =>
    unfold smallestFrom
    split
    · rename_i hmem
      apply ih (start + 1)
      obtain ⟨k, h1, h2, h3⟩ := h
      have hks : k ≠ start := fun he => h3 (he ▸ hmem)
      exact ⟨k, by omega, by omega, h3⟩
    · rename_i hmem
      exact hmem

theorem exists_missing_nat (l : List Nat) :
    ∃ k, 1 ≤ k ∧ k < 1 + (l.length + 1) ∧ k ∉ l := by
  by_contra hc
  push_neg at hc
  have hsub : ((List.range (l.length + 1)).map (· + 1)) ⊆ l := by
    intro k hk
    simp only [List.mem_map, List.mem_range] at hk
    obtain ⟨j, hj, rfl⟩ := hk
    exact hc (j + 1) (by omega) (by omega)
  have hnd : ((List.range (l.length + 1)).map (· + 1)).Nodup :=
    (List.nodup_range _).map (fun a b h => by omega)
  have hlen := (List.subperm_of_subset hnd hsub).length_le
  simp only [List.length_map, List.length_range] at hlen
  omega

theorem smallestMissing_spec (l : List Nat) :
    1 ≤ smallestMissing l ∧ smallestMissing l ∉ l ∧
    ∀ j, 1 ≤ j → j < smallestMissing l → j ∈ l :=
  ⟨smallestFrom_ge l 1 (l.length + 1),
   smallestFrom_not_mem l 1 (l.length + 1) (exists_missing_nat l),
   fun j h1 h2 => smallestFrom_below_mem l 1 (l.length + 1) j h1 h2⟩

/-- C8: `assignSelfId` is idempotent and minimal.  If self already has a
member id, every call returns it with the state unchanged — also after
`recordPeer` upserts, which never touch self's id.  Otherwise the returned
id is positive, not among the recorded member ids, every smaller positive
integer is already taken, the id is recorded against self, and a repeated
call returns the same id with the state unchanged. -/
theorem c8_assign_self_id (c : ClusterState) :
    (∀ i, c.selfId = some i → assignSelfId c = (i, c)) ∧
    (c.selfId = none →
      1 ≤ (assignSelfId c).1 ∧
      (assignSelfId c).1 ∉ c.members.map ClusterMember.myid ∧
      (∀ j, 1 ≤ j → j < (assignSelfId c).1 →
        j ∈ c.members.map ClusterMember.myid) ∧
      (assignSelfId c).2.selfId = some (assignSelfId c).1 ∧
      assignSelfId (assignSelfId c).2 =
        ((assignSelfId c).1, (assignSelfId c).2)) ∧
    (∀ i ep c2, recordPeer c i ep = .ok c2 → c2.selfId = c.selfId) := by
  refine ⟨?_, ?_, ?_⟩
  · intro i hi
    unfold assignSelfId
    rw [hi]
  · intro hn
    have hres : assignSelfId c =
        (smallestMissing (c.members.map ClusterMember.myid),
         { c with
            selfId := some (smallestMissing (c.members.map ClusterMember.myid)),
            members := c.members ++
              [⟨smallestMissing (c.members.map ClusterMember.myid),
                c.selfEndpoint⟩] }) := by
      unfold assignSelfId
      rw [hn]
    rw [hres]
    obtain ⟨g1, g2, g3⟩ := smallestMissing_spec (c.members.map ClusterMember.myid)
    exact ⟨g1, g2, g3, rfl, rfl⟩
  · intro i ep c2 h
    unfold recordPeer at h
    split at h
    · split at h
      · simp only [Except.ok.injEq] at h
        rw [← h]
      · exact absurd h (by simp)
    · simp only [Except.ok.injEq] at h
      rw [← h]

/-- A registry state in which self has no id yet and member ids 1 and 3
are taken. -/
def clAssign : ClusterState :=
  { expectedSize := 3, selfId := none, selfEndpoint := "self:2888:3888",
    members := [⟨1, "host1:2888:3888"⟩, ⟨3, "host3:2888:3888"⟩] }

/-- C8 witness: on `clAssign` the assigned id (the smallest free positive
integer, 2) is not among the recorded ids and is recorded against self. -/
theorem c8_assign_self_id_witness :
    (2 : Nat) ∉ clAssign.members.map ClusterMember.myid ∧
    (assignSelfId clAssign).2.selfId = some 2 :=
  ⟨((c8_assign_self_id clAssign).2.1 rfl).2.1,
   ((c8_assign_self_id clAssign).2.1 rfl).2.2.2.1⟩

